import Mathlib

/-!
Shallow embedding of `gmail_to_notebooklm/rate_limiter.py`.

Time is modelled by an explicit monotone clock of type `ℚ` (seconds since an
arbitrary epoch); `time.sleep(d)` advances the clock by `d`; the several
`datetime.now()` / `time.time()` reads inside one function body are modelled as
reads of the same instant except where a sleep intervenes.  Python `float`
arithmetic is modelled exactly over `ℚ` (all the spec's example values are
dyadic, so no rounding is lost).  A Python `dict` keyed by endpoint strings is
modelled as a function `String → Option ℚ`.
-/

namespace RateLim

/-- Endpoint-keyed mapping, modelling the Python dicts
`_last_request_times` and `_rate_limited_until`. -/
def EpMap : Type := String → Option ℚ

/-- The empty mapping (a fresh `{}`). -/
def EpMap.empty : EpMap := fun _ => none

/-- Update `m.set k v`: update / insert (`v = some t`) or delete (`v = none`) key `k`. -/
def EpMap.set (m : EpMap) (k : String) (v : Option ℚ) : EpMap :=
  fun x => if x = k then v else m x

/-- State of `RateLimiter` (fields of `RateLimiter.__init__`, lines 26-55). -/
structure RateLimiter where
  requests_per_second : ℚ
  min_interval : ℚ
  max_retries : ℕ
  initial_backoff : ℚ
  max_backoff : ℚ
  backoff_multiplier : ℚ
  last_request_times : EpMap
  rate_limited_until : EpMap

/-- Embeds `RateLimiter.__init__` (lines 26-55): derives `min_interval` and starts
with empty per-endpoint maps. -/
def RateLimiter.init (requests_per_second : ℚ) (max_retries : ℕ)
    (initial_backoff : ℚ) (max_backoff : ℚ) (backoff_multiplier : ℚ) :
    RateLimiter where
  requests_per_second := requests_per_second
  min_interval := if requests_per_second > 0 then 1 / requests_per_second else 0
  max_retries := max_retries
  initial_backoff := initial_backoff
  max_backoff := max_backoff
  backoff_multiplier := backoff_multiplier
  last_request_times := EpMap.empty
  rate_limited_until := EpMap.empty

/-- The `RateLimiter()` default construction (all keyword defaults of
`__init__`: 10.0 rps, 5 retries, backoff 1.0 / 60.0 / 2.0). -/
def RateLimiter.defaultInit : RateLimiter := RateLimiter.init 10 5 1 60 2

/-- Result of `wait_if_needed`: the mutated limiter, the clock value at
return, and the list of performed sleep durations. -/
structure WaitOutcome where
  state : RateLimiter
  tEnd : ℚ
  sleeps : List ℚ

/-- Lines 67-76 of `wait_if_needed`: the cool-down check.  An active
cool-down is slept out (its entry is kept); an expired one is lazily
deleted.  Returns the new limiter, the clock after the sleep, and the sleep
durations. -/
def RateLimiter.cooldown_phase (s : RateLimiter) (now : ℚ) (endpoint : String) :
    RateLimiter × ℚ × List ℚ :=
  match s.rate_limited_until endpoint with
  | some wait_until =>
      if now < wait_until then (s, wait_until, [wait_until - now])
      else ({ s with rate_limited_until := s.rate_limited_until.set endpoint none },
            now, [])
  | none => (s, now, [])

/-- Lines 78-86 of `wait_if_needed`: throttle against the last paced request
and record the (post-sleep) request time. -/
def RateLimiter.throttle_phase (s1 : RateLimiter) (t1 : ℚ) (endpoint : String) :
    RateLimiter × ℚ × List ℚ :=
  if t1 - (s1.last_request_times endpoint).getD 0 < s1.min_interval then
    ({ s1 with last_request_times := s1.last_request_times.set endpoint (some (t1 + (s1.min_interval - (t1 - (s1.last_request_times endpoint).getD 0)))) }, t1 + (s1.min_interval - (t1 - (s1.last_request_times endpoint).getD 0)), [s1.min_interval - (t1 - (s1.last_request_times endpoint).getD 0)])
  else
    ({ s1 with last_request_times := s1.last_request_times.set endpoint (some t1) }, t1, [])

/-- Embeds `RateLimiter.wait_if_needed` (lines 57-86).  Returns immediately when
pacing is disabled; otherwise runs the cool-down check then the throttle. -/
def RateLimiter.wait_if_needed (s : RateLimiter) (now : ℚ) (endpoint : String) :
    WaitOutcome :=
  if s.min_interval = 0 then ⟨s, now, []⟩
  else
    ⟨((s.cooldown_phase now endpoint).1.throttle_phase
        (s.cooldown_phase now endpoint).2.1 endpoint).1,
     ((s.cooldown_phase now endpoint).1.throttle_phase
        (s.cooldown_phase now endpoint).2.1 endpoint).2.1,
     (s.cooldown_phase now endpoint).2.2 ++
       ((s.cooldown_phase now endpoint).1.throttle_phase
          (s.cooldown_phase now endpoint).2.1 endpoint).2.2⟩

/-- Embeds `RateLimiter.calculate_backoff` (lines 88-110).  The random
`random.uniform(0.9, 1.1)` draw is modelled by an explicit factor: `none`
embeds the `jitter=False` call, `some j` the `jitter=True` call whose draw
came out as `j`. -/
def RateLimiter.calculate_backoff (s : RateLimiter) (retry_count : ℕ)
    (jitter : Option ℚ) : ℚ :=
  let backoff := min (s.initial_backoff * s.backoff_multiplier ^ retry_count)
    s.max_backoff
  match jitter with
  | some jitter_factor => backoff * jitter_factor
  | none => backoff

/-- Embeds `RateLimiter.handle_rate_limit_error` (lines 112-134).  Python tests
`if retry_after:`, which is false both for `None` and for the integer `0`. -/
def RateLimiter.handle_rate_limit_error (s : RateLimiter) (now : ℚ)
    (endpoint : String) (retry_after : Option ℤ) : RateLimiter :=
  let wait_until : ℚ :=
    match retry_after with
    | some ra => if ra = 0 then now + 60 else now + (ra : ℚ)
    | none => now + 60
  { s with rate_limited_until := s.rate_limited_until.set endpoint (some wait_until) }

/-- Embeds `RateLimiter.is_rate_limited` (lines 136-153): lazy expiry on check. -/
def RateLimiter.is_rate_limited (s : RateLimiter) (now : ℚ) (endpoint : String) :
    Bool × RateLimiter :=
  match s.rate_limited_until endpoint with
  | none => (false, s)
  | some wait_until =>
      if wait_until ≤ now then
        (false, { s with rate_limited_until := s.rate_limited_until.set endpoint none })
      else (true, s)

/-- A raised Python exception, as far as `with_retry`'s wrapper inspects it:
whether `isinstance(e, retryable_exceptions)` holds, whether it is
HTTP-429-shaped (`e.resp.status == 429`), and the parsed `retry-after`
value (already collapsed through the `hasattr(e.resp, 'get')` /
`int(...)`-parse chain of lines 234-241). -/
structure PyExc where
  retryable : Bool
  is_rate_limit : Bool
  retry_after : Option ℤ

/-- Outcome of one invocation of the wrapped function `func`. -/
inductive CallOutcome (α : Type) where
  | ok : α → CallOutcome α
  | raised : PyExc → CallOutcome α

/-- Outcome of one call of the `with_retry` wrapper. -/
inductive RetryOutcome (α : Type) where
  | ok : α → RetryOutcome α
  | rateLimitError : String → PyExc → RetryOutcome α
  | propagated : PyExc → RetryOutcome α

/-- Trace of one `with_retry` wrapper call: outcome, how many times `func`
was invoked, how many backoff sleeps were performed, and the final limiter
state and clock. -/
structure RunResult (α : Type) where
  outcome : RetryOutcome α
  attempts : ℕ
  backoff_sleeps : ℕ
  state : RateLimiter
  tEnd : ℚ

/-- The `for attempt in range(retries + 1)` loop of `with_retry`'s wrapper
(lines 205-261), with `remaining` the number of loop iterations still
allowed after the current one.  `f n` is the behaviour of `func` on its
`n`-th invocation; `js n` is the jitter draw used by the backoff after
attempt `n`. -/
def withRetryGo {α : Type} (retries : ℕ) (endpoint : String)
    (f : ℕ → CallOutcome α) (js : ℕ → ℚ) :
    ℕ → RateLimiter → ℚ → ℕ → RunResult α
  | remaining, s, t, attempt =>
    let w := s.wait_if_needed t endpoint
    match f attempt with
    | .ok a => ⟨.ok a, 1, 0, w.state, w.tEnd⟩
    | .raised e =>
      if e.retryable then
        let s2 := if e.is_rate_limit then
            w.state.handle_rate_limit_error w.tEnd endpoint e.retry_after
          else w.state
        match remaining with
        | 0 =>
            ⟨.rateLimitError
              ("Max retries (" ++ toString retries ++ ") exceeded for " ++ endpoint) e,
              1, 0, s2, w.tEnd⟩
        | r + 1 =>
            let backoff := s2.calculate_backoff attempt (some (js attempt))
            let rest := withRetryGo retries endpoint f js r s2 (w.tEnd + backoff)
              (attempt + 1)
            ⟨rest.outcome, rest.attempts + 1, rest.backoff_sleeps + 1, rest.state,
              rest.tEnd⟩
      else
        ⟨.propagated e, 1, 0, w.state, w.tEnd⟩

/-- One call of the wrapper produced by `with_retry(rate_limiter, endpoint,
max_retries, ...)` (lines 197-267): `limiter = rate_limiter or RateLimiter()`
then `retries = max_retries if max_retries is not None else
limiter.max_retries`, then the attempt loop. -/
def with_retry_run {α : Type} (rate_limiter : Option RateLimiter)
    (endpoint : String) (max_retries : Option ℕ) (f : ℕ → CallOutcome α)
    (js : ℕ → ℚ) (t : ℚ) : RunResult α :=
  let limiter := rate_limiter.getD RateLimiter.defaultInit
  let retries := max_retries.getD limiter.max_retries
  withRetryGo retries endpoint f js retries limiter t 0

/-- One wrapper call together with its effect on shared state: when a
`rate_limiter` object was supplied to the decorator, its mutations persist
(the mutated limiter is returned as the new shared state); when
`rate_limiter` is `None`, the freshly constructed limiter is local to the
call and discarded. -/
def with_retry_invoke {α : Type} (rate_limiter : Option RateLimiter)
    (endpoint : String) (max_retries : Option ℕ) (f : ℕ → CallOutcome α)
    (js : ℕ → ℚ) (t : ℚ) : RunResult α × Option RateLimiter :=
  match rate_limiter with
  | some l =>
      let r := with_retry_run (some l) endpoint max_retries f js t
      (r, some r.state)
  | none => (with_retry_run none endpoint max_retries f js t, none)

/-- State of `CachedValue` (lines 271-283).  A stored Python `None` is
indistinguishable from "unset" (`get` tests `self._value is None`), so the
payload is `Option α` with `none` playing Python `None`. -/
structure CachedValue (α : Type) where
  ttl_seconds : ℚ
  value : Option α
  expires_at : Option ℚ

/-- Embeds `CachedValue.__init__` (lines 274-283). -/
def CachedValue.init (α : Type) (ttl_seconds : ℚ) : CachedValue α :=
  ⟨ttl_seconds, none, none⟩

/-- Embeds `CachedValue.get` (lines 285-300): absent if unset; on expiry clears
both fields (read-triggered eviction) and reports absent; otherwise returns
the stored value unchanged. -/
def CachedValue.get {α : Type} (c : CachedValue α) (now : ℚ) :
    Option α × CachedValue α :=
  match c.value, c.expires_at with
  | some v, some exp =>
      if exp ≤ now then (none, { c with value := none, expires_at := none })
      else (some v, c)
  | some _, none => (none, c)
  | none, _ => (none, c)

/-- Embeds `CachedValue.set` (lines 302-310). -/
def CachedValue.set {α : Type} (c : CachedValue α) (now : ℚ) (value : Option α) :
    CachedValue α :=
  { c with value := value, expires_at := some (now + c.ttl_seconds) }

/-- Embeds `CachedValue.clear` (lines 312-315). -/
def CachedValue.clear {α : Type} (c : CachedValue α) : CachedValue α :=
  { c with value := none, expires_at := none }

/-- Embeds `CachedValue.is_valid` (lines 317-324): literally `self.get() is not
None`, including `get`'s eviction side effect. -/
def CachedValue.is_valid {α : Type} (c : CachedValue α) (now : ℚ) :
    Bool × CachedValue α :=
  let g := c.get now
  (g.1.isSome, g.2)

/-- Embeds `LabelCache` (lines 327-368): owns one `CachedValue`. -/
structure LabelCache (α : Type) where
  cache : CachedValue α

/-- Embeds `LabelCache.__init__` (lines 330-337). -/
def LabelCache.init (α : Type) (ttl_seconds : ℚ) : LabelCache α :=
  ⟨CachedValue.init α ttl_seconds⟩

/-- Embeds `get_label_cache` (lines 401-416) acting on the module-global
`_label_cache` slot (line 373): construct on first call, else return the
existing instance; returns the cache together with the new global slot. -/
def get_label_cache {α : Type} (globalSlot : Option (LabelCache α))
    (ttl_seconds : ℚ) : LabelCache α × Option (LabelCache α) :=
  match globalSlot with
  | none =>
      let c := LabelCache.init α ttl_seconds
      (c, some c)
  | some c => (c, some c)

/-! ## General lemmas about the embedded operations -/

/-- Lookup after `EpMap.set` at the same key equals at the same key. -/
lemma EpMap.set_same (m : EpMap) (k : String) (v : Option ℚ) : m.set k v k = v := by
  simp [EpMap.set]

/-- The throttle phase never touches `rate_limited_until`. -/
lemma throttle_phase_rate_limited_until (s1 : RateLimiter) (t1 : ℚ) (ep : String) :
    ((s1.throttle_phase t1 ep).1).rate_limited_until = s1.rate_limited_until := by
  unfold RateLimiter.throttle_phase
  split <;> rfl

/-- The throttle phase never touches `min_interval`. -/
lemma throttle_phase_min_interval (s1 : RateLimiter) (t1 : ℚ) (ep : String) :
    ((s1.throttle_phase t1 ep).1).min_interval = s1.min_interval := by
  unfold RateLimiter.throttle_phase
  split <;> rfl

/-- The throttle phase only moves the clock forward. -/
lemma throttle_phase_tEnd_ge (s1 : RateLimiter) (t1 : ℚ) (ep : String) :
    t1 ≤ (s1.throttle_phase t1 ep).2.1 := by
  unfold RateLimiter.throttle_phase
  split
  · rename_i h
    dsimp only
    linarith
  · dsimp only
    exact le_refl t1

/-- Cool-down phase, active-window case: sleep until the window expires; the
limiter (in particular its `rate_limited_until` entry) is unchanged. -/
lemma cooldown_phase_active (s : RateLimiter) (now wu : ℚ) (ep : String)
    (hrl : s.rate_limited_until ep = some wu) (hlt : now < wu) :
    s.cooldown_phase now ep = (s, wu, [wu - now]) := by
  unfold RateLimiter.cooldown_phase
  rw [hrl]
  dsimp only
  rw [if_pos hlt]

/-- Cool-down phase, expired-window case: lazily delete the entry. -/
lemma cooldown_phase_expired (s : RateLimiter) (now wu : ℚ) (ep : String)
    (hrl : s.rate_limited_until ep = some wu) (hge : ¬ now < wu) :
    s.cooldown_phase now ep =
      ({ s with rate_limited_until := s.rate_limited_until.set ep none }, now, []) := by
  unfold RateLimiter.cooldown_phase
  rw [hrl]
  dsimp only
  rw [if_neg hge]

/-- Cool-down phase, no-window case: nothing happens. -/
lemma cooldown_phase_none (s : RateLimiter) (now : ℚ) (ep : String)
    (hrl : s.rate_limited_until ep = none) :
    s.cooldown_phase now ep = (s, now, []) := by
  unfold RateLimiter.cooldown_phase
  rw [hrl]

/-- Function `wait_if_needed` preserves `min_interval`. -/
lemma wait_if_needed_min_interval (s : RateLimiter) (now : ℚ) (ep : String) :
    (s.wait_if_needed now ep).state.min_interval = s.min_interval := by
  unfold RateLimiter.wait_if_needed
  by_cases h0 : s.min_interval = 0
  · rw [if_pos h0]
  · rw [if_neg h0]
    rcases h : s.rate_limited_until ep with _ | wu
    · rw [cooldown_phase_none s now ep h]
      exact throttle_phase_min_interval s now ep
    · by_cases hlt : now < wu
      · rw [cooldown_phase_active s now wu ep h hlt]
        exact throttle_phase_min_interval s wu ep
      · rw [cooldown_phase_expired s now wu ep h hlt]
        rw [throttle_phase_min_interval]

/-- Running `wait_if_needed` with pacing on and an active cool-down: returns no
earlier than the window's expiry and keeps the `rate_limited_until` entry. -/
lemma wait_if_needed_active_cooldown (s : RateLimiter) (now wu : ℚ) (ep : String)
    (hmin : s.min_interval ≠ 0) (hrl : s.rate_limited_until ep = some wu)
    (hlt : now < wu) :
    wu ≤ (s.wait_if_needed now ep).tEnd ∧
      (s.wait_if_needed now ep).state.rate_limited_until ep = some wu := by
  unfold RateLimiter.wait_if_needed
  rw [if_neg hmin, cooldown_phase_active s now wu ep hrl hlt]
  constructor
  · exact throttle_phase_tEnd_ge s wu ep
  · rw [throttle_phase_rate_limited_until]
    exact hrl

/-- Running `wait_if_needed` with pacing on and an expired cool-down entry: the
entry is removed. -/
lemma wait_if_needed_expired_cooldown (s : RateLimiter) (now wu : ℚ) (ep : String)
    (hmin : s.min_interval ≠ 0) (hrl : s.rate_limited_until ep = some wu)
    (hge : ¬ now < wu) :
    (s.wait_if_needed now ep).state.rate_limited_until ep = none := by
  unfold RateLimiter.wait_if_needed
  rw [if_neg hmin, cooldown_phase_expired s now wu ep hrl hge]
  rw [throttle_phase_rate_limited_until]
  exact EpMap.set_same _ ep none

/-! ## Claim C1 -/

/-- Concrete limiter for claim C1: default configuration plus an active
cool-down window on endpoint `"default"` expiring at time 100. -/
def sC1 : RateLimiter :=
  { RateLimiter.defaultInit with
      rate_limited_until := EpMap.empty.set "default" (some 100) }

/-- Claim C1, counterexample: at time 0, `sC1` has pacing enabled
(`min_interval = 1/10 > 0`) and an active cool-down on `"default"`
(expiry 100 > 0), yet after `wait_if_needed` returns the
`rate_limited_until` entry is still present (`some 100`), not removed as
the claim states. -/
theorem wait_keeps_cooldown_entry_after_sleep :
    0 < sC1.min_interval ∧ sC1.rate_limited_until "default" = some 100 ∧
      (0 : ℚ) < 100 ∧
      (sC1.wait_if_needed 0 "default").state.rate_limited_until "default" = some 100 ∧
      (sC1.wait_if_needed 0 "default").state.rate_limited_until "default" ≠ none := by
  have hmin : (0 : ℚ) < sC1.min_interval := by
    norm_num [sC1, RateLimiter.defaultInit, RateLimiter.init]
  have hrl : sC1.rate_limited_until "default" = some 100 := by
    simp [sC1, RateLimiter.defaultInit, RateLimiter.init, EpMap.set, EpMap.empty]
  have hkeep :=
    (wait_if_needed_active_cooldown sC1 0 100 "default" (ne_of_gt hmin) hrl
      (by norm_num)).2
  exact ⟨hmin, hrl, by norm_num, hkeep, by rw [hkeep]; exact fun h => by cases h⟩

/-- Claim C1, amended: with pacing enabled and an active cool-down on `ep`,
`wait_if_needed` blocks until the cool-down expires (it returns at a clock
value ≥ the expiry), but the `rate_limited_until` entry is NOT removed by
this call; it is removed lazily by the next `wait_if_needed` call made at
or after the expiry time. -/
theorem wait_blocks_until_cooldown_removes_lazily (s : RateLimiter)
    (now wu : ℚ) (ep : String) (hmin : 0 < s.min_interval)
    (hrl : s.rate_limited_until ep = some wu) (hlt : now < wu) :
    wu ≤ (s.wait_if_needed now ep).tEnd ∧
      (s.wait_if_needed now ep).state.rate_limited_until ep = some wu ∧
      ∀ t2, wu ≤ t2 →
        ((s.wait_if_needed now ep).state.wait_if_needed t2 ep).state.rate_limited_until
          ep = none := by
  obtain ⟨h1, h2⟩ :=
    wait_if_needed_active_cooldown s now wu ep (ne_of_gt hmin) hrl hlt
  refine ⟨h1, h2, fun t2 ht2 => ?_⟩
  have hmin2 : (s.wait_if_needed now ep).state.min_interval ≠ 0 := by
    rw [wait_if_needed_min_interval]
    exact ne_of_gt hmin
  exact wait_if_needed_expired_cooldown _ t2 wu ep hmin2 h2 (not_lt.mpr ht2)

/-- Claim C1, witness for the amended theorem at the concrete limiter
`sC1`, called at time 0 and again at time 200. -/
theorem wait_blocks_until_cooldown_removes_lazily_witness :
    (100 : ℚ) ≤ (sC1.wait_if_needed 0 "default").tEnd ∧
      (sC1.wait_if_needed 0 "default").state.rate_limited_until "default" = some 100 ∧
      ((sC1.wait_if_needed 0 "default").state.wait_if_needed 200
          "default").state.rate_limited_until "default" = none := by
  have h := wait_blocks_until_cooldown_removes_lazily sC1 0 100 "default"
    (by norm_num [sC1, RateLimiter.defaultInit, RateLimiter.init])
    (by simp [sC1, RateLimiter.defaultInit, RateLimiter.init, EpMap.set, EpMap.empty])
    (by norm_num)
  exact ⟨h.1, h.2.1, h.2.2 200 (by norm_num)⟩

/-! ## Claim C2 -/

/-- Claim C2, counterexample: `handle_rate_limit_error` called at time 0
with the supplied value `retry_after = 0` stores `now + 60`, not
`now + retry_after = 0` as the claim states (Python's `if retry_after:`
is false for the integer 0). -/
theorem handle_zero_retry_after_uses_default :
    (RateLimiter.defaultInit.handle_rate_limit_error 0 "ep" (some 0)).rate_limited_until
        "ep" = some 60 ∧ (60 : ℚ) ≠ (0 : ℚ) + ((0 : ℤ) : ℚ) := by
  constructor
  · norm_num [RateLimiter.handle_rate_limit_error, EpMap.set_same]
  · norm_num

/-- Claim C2, amended: `handle_rate_limit_error(ep, retry_after)` sets
`rate_limited_until[ep]` to `now + retry_after` when `retry_after` is given
and nonzero, and to `now + 60` when it is absent or zero; the new window
replaces any prior window for `ep` rather than stacking with it. -/
theorem handle_rate_limit_sets_replacing_window (s : RateLimiter) (now : ℚ)
    (ep : String) (retry_after : Option ℤ) :
    (retry_after = none →
      (s.handle_rate_limit_error now ep retry_after).rate_limited_until ep =
        some (now + 60)) ∧
    (∀ ra : ℤ, retry_after = some ra → ra ≠ 0 →
      (s.handle_rate_limit_error now ep retry_after).rate_limited_until ep =
        some (now + (ra : ℚ))) ∧
    (retry_after = some 0 →
      (s.handle_rate_limit_error now ep retry_after).rate_limited_until ep =
        some (now + 60)) ∧
    (∀ prior : ℚ,
      (({ s with rate_limited_until := s.rate_limited_until.set ep (some prior)
        }).handle_rate_limit_error now ep retry_after).rate_limited_until ep =
        (s.handle_rate_limit_error now ep retry_after).rate_limited_until ep) := by
  refine ⟨?_, ?_, ?_, ?_⟩
  · intro h
    subst h
    simp [RateLimiter.handle_rate_limit_error, EpMap.set_same]
  · intro ra h hne
    subst h
    simp [RateLimiter.handle_rate_limit_error, EpMap.set_same, hne]
  · intro h
    subst h
    simp [RateLimiter.handle_rate_limit_error, EpMap.set_same]
  · intro prior
    simp [RateLimiter.handle_rate_limit_error, EpMap.set_same]

/-- Claim C2, witness for the amended theorem: a nonzero `retry_after = 7`
at time 5 yields the window `5 + 7`, and a prior window (here expiring at
3) is replaced, not stacked. -/
theorem handle_rate_limit_sets_replacing_window_witness :
    (RateLimiter.defaultInit.handle_rate_limit_error 5 "ep" (some 7)).rate_limited_until
        "ep" = some (5 + ((7 : ℤ) : ℚ)) ∧
    (({ RateLimiter.defaultInit with rate_limited_until :=
          RateLimiter.defaultInit.rate_limited_until.set "ep" (some 3)
      }).handle_rate_limit_error 5 "ep" (some 7)).rate_limited_until "ep" =
      (RateLimiter.defaultInit.handle_rate_limit_error 5 "ep" (some 7)).rate_limited_until
        "ep" :=
  ⟨(handle_rate_limit_sets_replacing_window RateLimiter.defaultInit 5 "ep"
      (some 7)).2.1 7 rfl (by decide),
   (handle_rate_limit_sets_replacing_window RateLimiter.defaultInit 5 "ep"
      (some 7)).2.2.2 3⟩

/-! ## Claim C5 -/

/-- Claim C5: `calculate_backoff(n, jitter=False)` equals
`min(initial_backoff * backoff_multiplier ** n, max_backoff)` for every
configuration and every `n ≥ 0`; with the spec's example configuration
(b=1, m=2, M=60) the values at n = 0, 1, 2, 3 are 1, 2, 4, 8 seconds. -/
theorem calculate_backoff_formula :
    (∀ (s : RateLimiter) (n : ℕ),
      s.calculate_backoff n none =
        min (s.initial_backoff * s.backoff_multiplier ^ n) s.max_backoff) ∧
    RateLimiter.defaultInit.calculate_backoff 0 none = 1 ∧
    RateLimiter.defaultInit.calculate_backoff 1 none = 2 ∧
    RateLimiter.defaultInit.calculate_backoff 2 none = 4 ∧
    RateLimiter.defaultInit.calculate_backoff 3 none = 8 := by
  refine ⟨fun s n => rfl, ?_, ?_, ?_, ?_⟩ <;>
    norm_num [RateLimiter.calculate_backoff, RateLimiter.defaultInit,
      RateLimiter.init, min_def]

/-! ## Claim C6 -/

/-- Claim C6: with jitter enabled, for every draw `j` of the uniform jitter
factor in [0.9, 1.1] (and nonnegative configured backoff parameters, as in
every configuration the spec describes), `calculate_backoff(n)` lies within
[0.9, 1.1] times the jitter-free value. -/
theorem calculate_backoff_jitter_bounds (s : RateLimiter) (n : ℕ) (j : ℚ)
    (hb : 0 ≤ s.initial_backoff) (hm : 0 ≤ s.backoff_multiplier)
    (hM : 0 ≤ s.max_backoff) (hj1 : 9 / 10 ≤ j) (hj2 : j ≤ 11 / 10) :
    9 / 10 * s.calculate_backoff n none ≤ s.calculate_backoff n (some j) ∧
    s.calculate_backoff n (some j) ≤ 11 / 10 * s.calculate_backoff n none := by
  have hbase : 0 ≤ s.calculate_backoff n none := by
    unfold RateLimiter.calculate_backoff
    dsimp only
    exact le_min (mul_nonneg hb (pow_nonneg hm n)) hM
  have hjit : s.calculate_backoff n (some j) = s.calculate_backoff n none * j := rfl
  constructor
  · rw [hjit]
    nlinarith
  · rw [hjit]
    nlinarith

/-- Claim C6, witness: default configuration, n = 3, jitter draw j = 1. -/
theorem calculate_backoff_jitter_bounds_witness :
    9 / 10 * RateLimiter.defaultInit.calculate_backoff 3 none ≤
      RateLimiter.defaultInit.calculate_backoff 3 (some 1) ∧
    RateLimiter.defaultInit.calculate_backoff 3 (some 1) ≤
      11 / 10 * RateLimiter.defaultInit.calculate_backoff 3 none :=
  calculate_backoff_jitter_bounds RateLimiter.defaultInit 3 1
    (by norm_num [RateLimiter.defaultInit, RateLimiter.init])
    (by norm_num [RateLimiter.defaultInit, RateLimiter.init])
    (by norm_num [RateLimiter.defaultInit, RateLimiter.init])
    (by norm_num) (by norm_num)

/-! ## Claim C4 -/

/-- Claim C4: on a cache whose TTL has not elapsed (`0 < ttl_seconds`, so the
window `now + ttl` is still open at `now`), `set(v)` followed immediately by
`get()` returns exactly the stored `v` (the same value, no copy — in this
embedding, definitional identity of the returned payload); and after `clear()`,
`get()` returns absent at every time regardless of the TTL. -/
theorem ttl_cache_round_trip {α : Type} (c : CachedValue α) (now : ℚ)
    (v : Option α) (httl : 0 < c.ttl_seconds) :
    ((c.set now v).get now).1 = v ∧ ∀ t : ℚ, (c.clear.get t).1 = none := by
  constructor
  · rcases v with _ | x
    · rfl
    · unfold CachedValue.set CachedValue.get
      dsimp only
      rw [if_neg]
      intro h
      linarith
  · intro t
    rfl

/-- Claim C4, witness: a fresh cache with TTL 3600; store `some 5` at time
0, read it back at time 0; clear and read at time 7. -/
theorem ttl_cache_round_trip_witness :
    (((CachedValue.init ℕ 3600).set 0 (some 5)).get 0).1 = some 5 ∧
      ((CachedValue.init ℕ 3600).clear.get 7).1 = none :=
  ⟨(ttl_cache_round_trip (CachedValue.init ℕ 3600) 0 (some 5)
      (by norm_num [CachedValue.init])).1,
   (ttl_cache_round_trip (CachedValue.init ℕ 3600) 0 (some 5)
      (by norm_num [CachedValue.init])).2 7⟩

/-! ## Claim C8 -/

/-- Reading a `CachedValue` twice at the same instant observes the same
payload: `get`'s eviction side effect leaves the cache in a state where a
second `get` agrees. -/
lemma cached_get_idempotent {α : Type} (c : CachedValue α) (now : ℚ) :
    ((c.get now).2.get now).1 = (c.get now).1 := by
  rcases hv : c.value with _ | x
  · simp [CachedValue.get, hv]
  · rcases he : c.expires_at with _ | exp
    · simp [CachedValue.get, hv, he]
    · by_cases hle : exp ≤ now
      · simp [CachedValue.get, hv, he, hle]
      · simp [CachedValue.get, hv, he, hle]

/-- Claim C8: `is_valid()` returns true iff `get()` would return a present
value, and calling `is_valid()` then `get()` at the same instant observes
the same outcome (both present with the same payload, or both absent). -/
theorem is_valid_agrees_with_get {α : Type} (c : CachedValue α) (now : ℚ) :
    ((c.is_valid now).1 = true ↔ ((c.get now).1).isSome = true) ∧
    ((c.is_valid now).2.get now).1 = (c.get now).1 := by
  exact ⟨Iff.rfl, cached_get_idempotent c now⟩

/-! ## Claim C3 -/

/-- Attempt loop on a function that raises a retryable exception on every
invocation: with `remaining` further iterations allowed, the loop performs
`remaining + 1` invocations and ends in `RateLimitError` chaining the last
raised exception, with the message built from the retry bound and the
endpoint. -/
lemma withRetryGo_raise_all {α : Type} (retries : ℕ) (ep : String)
    (e : ℕ → PyExc) (js : ℕ → ℚ) (hre : ∀ n, (e n).retryable = true) :
    ∀ (remaining : ℕ) (s : RateLimiter) (t : ℚ) (attempt : ℕ),
      (withRetryGo (α := α) retries ep (fun n => CallOutcome.raised (e n)) js
          remaining s t attempt).attempts = remaining + 1 ∧
      (withRetryGo (α := α) retries ep (fun n => CallOutcome.raised (e n)) js remaining
          s t attempt).outcome =
        RetryOutcome.rateLimitError
          ("Max retries (" ++ toString retries ++ ") exceeded for " ++ ep)
          (e (attempt + remaining)) := by
  intro remaining
  induction remaining with
  | zero =>
    intro s t attempt
    unfold withRetryGo
    simp [hre]
  | succ r ih =>
    intro s t attempt
    unfold withRetryGo
    simp only [hre, if_true, eq_self_iff_true]
    refine ⟨?_, ?_⟩
    · rw [(ih _ _ _).1]
    · rw [(ih _ _ _).2]
      have harith : attempt + 1 + r = attempt + (r + 1) := by omega
      rw [harith]

/-- Claim C3: wrapping a function that raises a retryable exception on
every invocation, with retry bound `K`, performs exactly `K + 1` invocation
attempts and raises `RateLimitError` chaining the last underlying exception,
with a message that identifies the endpoint. -/
theorem retry_exhaustion_attempts_and_error {α : Type} (rl : Option RateLimiter)
    (ep : String) (K : ℕ) (e : ℕ → PyExc) (js : ℕ → ℚ) (t : ℚ)
    (hre : ∀ n, (e n).retryable = true) :
    (with_retry_run (α := α) rl ep (some K) (fun n => CallOutcome.raised (e n)) js
        t).attempts = K + 1 ∧
    (with_retry_run (α := α) rl ep (some K) (fun n => CallOutcome.raised (e n)) js
        t).outcome =
      RetryOutcome.rateLimitError
        ("Max retries (" ++ toString K ++ ") exceeded for " ++ ep) (e K) := by
  have h := withRetryGo_raise_all (α := α) K ep e js hre K
    (rl.getD RateLimiter.defaultInit) t 0
  rw [Nat.zero_add] at h
  exact h

/-- The always-raising, always-retryable exception stream used in C3's
witness. -/
def excAlways : ℕ → PyExc := fun _ => ⟨true, false, none⟩

/-- Claim C3, witness: retry bound 2 on endpoint `"ep"` gives 3 attempts
and the `RateLimitError` chaining the third exception. -/
theorem retry_exhaustion_attempts_and_error_witness :
    (with_retry_run (α := ℕ) none "ep" (some 2)
        (fun n => CallOutcome.raised (excAlways n)) (fun _ => 1) 0).attempts = 3 ∧
    (with_retry_run (α := ℕ) none "ep" (some 2)
        (fun n => CallOutcome.raised (excAlways n)) (fun _ => 1) 0).outcome =
      RetryOutcome.rateLimitError
        ("Max retries (" ++ toString 2 ++ ") exceeded for " ++ "ep") (excAlways 2) :=
  retry_exhaustion_attempts_and_error none "ep" 2 excAlways (fun _ => 1) 0
    (fun _ => rfl)

/-! ## Claim C7 -/

/-- Function `wait_if_needed` never creates a cool-down entry: an endpoint key with
no entry still has none afterwards (the cool-down phase only deletes). -/
lemma wait_if_needed_preserves_no_cooldown (s : RateLimiter) (now : ℚ)
    (ep ep2 : String) (h : s.rate_limited_until ep2 = none) :
    (s.wait_if_needed now ep).state.rate_limited_until ep2 = none := by
  unfold RateLimiter.wait_if_needed
  by_cases h0 : s.min_interval = 0
  · rw [if_pos h0]
    exact h
  · rw [if_neg h0]
    rcases hrl : s.rate_limited_until ep with _ | wu
    · rw [cooldown_phase_none s now ep hrl, throttle_phase_rate_limited_until]
      exact h
    · by_cases hlt : now < wu
      · rw [cooldown_phase_active s now wu ep hrl hlt,
          throttle_phase_rate_limited_until]
        exact h
      · rw [cooldown_phase_expired s now wu ep hrl hlt,
          throttle_phase_rate_limited_until]
        by_cases he : ep2 = ep
        · simp [EpMap.set, he]
        · simp [EpMap.set, he, h]

/-- One iteration of the attempt loop on a non-retryable raise: the
exception propagates, with one invocation and no backoff sleep, and the
limiter state is only what `wait_if_needed` left. -/
lemma withRetryGo_nonretryable {α : Type} (retries : ℕ) (ep : String)
    (f : ℕ → CallOutcome α) (js : ℕ → ℚ) (remaining : ℕ) (s : RateLimiter)
    (t : ℚ) (attempt : ℕ) (e : PyExc) (hf : f attempt = CallOutcome.raised e)
    (hnr : e.retryable = false) :
    withRetryGo retries ep f js remaining s t attempt =
      ⟨RetryOutcome.propagated e, 1, 0, (s.wait_if_needed t ep).state,
        (s.wait_if_needed t ep).tEnd⟩ := by
  unfold withRetryGo
  rw [hf]
  simp [hnr]

/-- Claim C7: if the wrapped function raises a non-retryable exception on
the first attempt, the wrapper propagates it immediately: exactly one
invocation, no backoff sleep, and no cool-down entry recorded. -/
theorem non_retryable_propagates_first_attempt {α : Type}
    (rl : Option RateLimiter) (ep : String) (mr : Option ℕ) (e : PyExc)
    (f : ℕ → CallOutcome α) (js : ℕ → ℚ) (t : ℚ)
    (hf : f 0 = CallOutcome.raised e) (hnr : e.retryable = false) :
    (with_retry_run rl ep mr f js t).outcome = RetryOutcome.propagated e ∧
    (with_retry_run rl ep mr f js t).attempts = 1 ∧
    (with_retry_run rl ep mr f js t).backoff_sleeps = 0 ∧
    ∀ ep2, (rl.getD RateLimiter.defaultInit).rate_limited_until ep2 = none →
      (with_retry_run rl ep mr f js t).state.rate_limited_until ep2 = none := by
  have heq : with_retry_run rl ep mr f js t =
      ⟨RetryOutcome.propagated e, 1, 0,
        ((rl.getD RateLimiter.defaultInit).wait_if_needed t ep).state,
        ((rl.getD RateLimiter.defaultInit).wait_if_needed t ep).tEnd⟩ :=
    withRetryGo_nonretryable (mr.getD (rl.getD RateLimiter.defaultInit).max_retries)
      ep f js (mr.getD (rl.getD RateLimiter.defaultInit).max_retries)
      (rl.getD RateLimiter.defaultInit) t 0 e hf hnr
  rw [heq]
  exact ⟨rfl, rfl, rfl,
    fun ep2 h2 => wait_if_needed_preserves_no_cooldown _ t ep ep2 h2⟩

/-- The non-retryable exception used in C7's witness. -/
def excFatal : PyExc := ⟨false, false, none⟩

/-- Claim C7, witness: a function raising `excFatal` under the default
limiter propagates with one attempt, no backoff sleep, and no cool-down
entry on `"other"`. -/
theorem non_retryable_propagates_first_attempt_witness :
    (with_retry_run (α := ℕ) none "ep" none (fun _ => CallOutcome.raised excFatal)
        (fun _ => 1) 0).outcome = RetryOutcome.propagated excFatal ∧
    (with_retry_run (α := ℕ) none "ep" none (fun _ => CallOutcome.raised excFatal)
        (fun _ => 1) 0).attempts = 1 ∧
    (with_retry_run (α := ℕ) none "ep" none (fun _ => CallOutcome.raised excFatal)
        (fun _ => 1) 0).backoff_sleeps = 0 ∧
    (with_retry_run (α := ℕ) none "ep" none (fun _ => CallOutcome.raised excFatal)
        (fun _ => 1) 0).state.rate_limited_until "other" = none := by
  have h := non_retryable_propagates_first_attempt (α := ℕ) none "ep" none excFatal
    (fun _ => CallOutcome.raised excFatal) (fun _ => 1) 0 rfl rfl
  exact ⟨h.1, h.2.1, h.2.2.1, h.2.2.2 "other" rfl⟩

/-! ## Claim C9 -/

/-- Claim C9: with `rate_limiter=None` (the decorator default), every
wrapper invocation uses a brand-new `RateLimiter` built with the
constructor defaults and empty per-endpoint maps, and nothing of it
persists: the shared slot stays `None`, a second invocation behaves exactly
like a run started from the fresh default limiter, and that fresh limiter
has no pacing and no cool-down state for any endpoint. -/
theorem with_retry_default_limiter_fresh {α β : Type} (ep1 ep2 : String)
    (K1 K2 : Option ℕ) (f : ℕ → CallOutcome α) (g : ℕ → CallOutcome β)
    (js1 js2 : ℕ → ℚ) (t1 t2 : ℚ) :
    (with_retry_invoke none ep1 K1 f js1 t1).2 = none ∧
    (with_retry_invoke (with_retry_invoke none ep1 K1 f js1 t1).2 ep2 K2 g js2
        t2).1 = with_retry_run none ep2 K2 g js2 t2 ∧
    with_retry_run none ep2 K2 g js2 t2 =
      withRetryGo (K2.getD 5) ep2 g js2 (K2.getD 5) RateLimiter.defaultInit t2 0 ∧
    (∀ ep, RateLimiter.defaultInit.last_request_times ep = none ∧
      RateLimiter.defaultInit.rate_limited_until ep = none) := by
  refine ⟨rfl, rfl, rfl, fun _ => ⟨rfl, rfl⟩⟩

/-! ## Claim C10 -/

/-- Claim C10: `get_label_cache(ttl)` constructs the `LabelCache` with the
given TTL only when the global slot is empty (the first call); every later
call returns the identical existing instance and ignores its own TTL
argument, so the TTL in effect is the first call's. -/
theorem get_label_cache_singleton {α : Type} (t1 t2 : ℚ) (c : LabelCache α) :
    (get_label_cache (none : Option (LabelCache α)) t1).1 = LabelCache.init α t1 ∧
    get_label_cache (some c) t2 = (c, some c) ∧
    (get_label_cache (get_label_cache (none : Option (LabelCache α)) t1).2 t2).1 =
      (get_label_cache (none : Option (LabelCache α)) t1).1 ∧
    ((get_label_cache (get_label_cache (none : Option (LabelCache α)) t1).2
        t2).1).cache.ttl_seconds = t1 :=
  ⟨rfl, rfl, rfl, rfl⟩

end RateLim
